import Mathlib

/-!
Verification of the equation catalog and the `calculate` routine of
`EnergMatEquations.py` (GMC-Alchemy/Equations-for-Energetic-Materials).

Embedding conventions, stated once here:

* Algebraic expressions that the Python source keeps as strings (the
  `"expr"` field of each catalog entry, parsed at solve time by
  `sp.sympify(eq_str, locals=symbols)`) are embedded as terms of the
  inductive type `Expr` below, transcribed token for token from the
  source strings with Python precedence and left associativity.
  `sympify` resolves the identifier `sqrt` to the SymPy square-root
  function, not to a symbol, so `sqrt` is an `Expr` constructor and
  never a variable.

* Numeric literals (`600.8`, `1./3.`, ...) are read as exact rationals
  and numeric evaluation is over the real numbers: the standard
  idealisation of the Python/SymPy floating-point pipeline.  No theorem
  below depends on a rounding tie, so this idealisation is faithful for
  everything proved here.

* Values flowing out of `float(...)` / `Expr.evalf` are modelled by
  `PyVal`: either a finite real, or `PyVal.und`, which stands for every
  value the final `f"{result:.4f}"` formatting step rejects with an
  exception (SymPy `nan`, `zoo`, complex numbers, infinities, or an
  expression still containing an unsubstituted symbol).  Arithmetic on
  `und` absorbs, matching SymPy's propagation of nan/zoo/complex
  through the operations that occur in the catalog.  (Known coarsening,
  exercised by no theorem: SymPy evaluates `0 * complex` to `0` and
  `1/oo` to `0`, while this model keeps them undefined.)

* The GUI plumbing (Tk widgets, matplotlib rendering) is out of scope;
  `calculate` is embedded as a pure function of the equation name, the
  selected (display-form) target variable and the list of typed input
  texts, each text abstracted by its `float()` parse outcome
  (`none` when `float()` raises).  Its result is the observable effect:
  which message box is shown, or which text `output_label` receives.

* The `"latex"` field of each catalog entry is presentation-only data
  (rendered to an image, never parsed); it is omitted from the
  embedding.
-/

/-- Abstract syntax of the algebraic expressions appearing in the
`"expr"` strings of the catalog, as produced by `sp.sympify` over the
declared symbols. -/
inductive Expr where
  | num  (q : ℚ)
  | var  (s : String)
  | add  (a b : Expr)
  | sub  (a b : Expr)
  | mul  (a b : Expr)
  | div  (a b : Expr)
  | pow  (a b : Expr)
  | sqrt (a : Expr)
deriving DecidableEq

/-- Variable identifiers occurring in an expression (with repetitions;
only membership is ever used). -/
def exprVars : Expr → List String
  | .num _ => []
  | .var s => [s]
  | .add a b => exprVars a ++ exprVars b
  | .sub a b => exprVars a ++ exprVars b
  | .mul a b => exprVars a ++ exprVars b
  | .div a b => exprVars a ++ exprVars b
  | .pow a b => exprVars a ++ exprVars b
  | .sqrt a => exprVars a

/-- Outcome of a numeric (SymPy `evalf`) computation: a finite real, or
`und` — any value on which the `.4f` format raises (nan, zoo, complex,
infinity, leftover symbol). -/
inductive PyVal where
  | fin (x : ℝ)
  | und
deriving Inhabited

open Classical in
/-- Division as evaluated by SymPy: a finite quotient when the
denominator is nonzero; `x/0` is `zoo` (or `nan` for `0/0`), which the
display step rejects, hence `und`. -/
noncomputable def pyDiv : PyVal → PyVal → PyVal
  | .fin x, .fin y => if y = 0 then .und else .fin (x / y)
  | _, _ => .und

open Classical in
/-- Power as evaluated by SymPy on real operands: real power for a
positive base; `0 ** y` is `0` for positive `y`, `1` for `y = 0` and
`zoo` otherwise; a negative base gives a real only for integer-valued
exponents (mpmath returns the real power there and a complex principal
value otherwise, which the display step rejects). -/
noncomputable def pyPow : PyVal → PyVal → PyVal
  | .fin x, .fin y =>
      if 0 < x then .fin (x ^ y)
      else if x = 0 then
        (if 0 < y then .fin 0 else if y = 0 then .fin 1 else .und)
      else if ∃ n : ℤ, (n : ℝ) = y then .fin (x ^ y) else .und
  | _, _ => .und

open Classical in
/-- Square root as evaluated by SymPy: real for a nonnegative argument,
imaginary (hence rejected by the display step) otherwise. -/
noncomputable def pySqrt : PyVal → PyVal
  | .fin x => if 0 ≤ x then .fin (Real.sqrt x) else .und
  | _ => .und

noncomputable def pyAdd : PyVal → PyVal → PyVal
  | .fin x, .fin y => .fin (x + y)
  | _, _ => .und

noncomputable def pySub : PyVal → PyVal → PyVal
  | .fin x, .fin y => .fin (x - y)
  | _, _ => .und

noncomputable def pyMul : PyVal → PyVal → PyVal
  | .fin x, .fin y => .fin (x * y)
  | _, _ => .und

/-- Numeric evaluation of an expression under an environment, the model
of `solution.evalf(subs=subs)` followed by the `.4f` admissibility of
the result (source line 321).  Real powers are Mathlib's `rpow`. -/
noncomputable def evalPy (env : String → PyVal) : Expr → PyVal
  | .num q => .fin (q : ℝ)
  | .var s => env s
  | .add a b => pyAdd (evalPy env a) (evalPy env b)
  | .sub a b => pySub (evalPy env a) (evalPy env b)
  | .mul a b => pyMul (evalPy env a) (evalPy env b)
  | .div a b => pyDiv (evalPy env a) (evalPy env b)
  | .pow a b => pyPow (evalPy env a) (evalPy env b)
  | .sqrt a => pySqrt (evalPy env a)

/-- One catalog entry (source lines 37–145): the expression string
(pre-parsed, see the header comment), the ordered variable list
(`vars` embeds the source's `"variables"` field; `variables` is a
reserved command name in Lean) whose first element is the defined
quantity, and the unit table.  The
presentation-only `"latex"` field is omitted. -/
structure EqDef where
  expr : Expr
  vars : List String
  units : List (String × String)

/-- Entry "Friction Sensitivity (FS)", source lines 38–49.
`expr`: `600.8 - 2428.6 * (nH/Mw) - 6481.4 * (nN/Mw) - 9560.9 * (nO/Mw) + 54.5 * Pp - 77.8 * Pn`. -/
def eq_FS : EqDef where
  expr :=
    .sub
      (.add
        (.sub
          (.sub
            (.sub (.num 600.8)
              (.mul (.num 2428.6) (.div (.var "nH") (.var "Mw"))))
            (.mul (.num 6481.4) (.div (.var "nN") (.var "Mw"))))
          (.mul (.num 9560.9) (.div (.var "nO") (.var "Mw"))))
        (.mul (.num 54.5) (.var "Pp")))
      (.mul (.num 77.8) (.var "Pn"))
  vars := ["FS", "nH", "nN", "nO", "Mw", "Pp", "Pn"]
  units := [("FS", "N"), ("nH", ""), ("nN", ""), ("nO", ""),
            ("Mw", "g/mol"), ("Pp", ""), ("Pn", "")]

/-- Entry "Density (ρ)", source lines 50–58.
`expr`: `0.9183 * M / V001 + 0.0028 * νσtot2 + 0.0443`. -/
def eq_Density : EqDef where
  expr :=
    .add
      (.add (.div (.mul (.num 0.9183) (.var "M")) (.var "V001"))
        (.mul (.num 0.0028) (.var "νσtot2")))
      (.num 0.0443)
  vars := ["ρ", "M", "V001", "νσtot2"]
  units := [("ρ", "g/cm³"), ("M", "g/mol"),
            ("V001", "cm³/mol"), ("νσtot2", "kcal²/mol²")]

/-- Entry "Detonation Pressure at Chapman-Jouguet point (PCJ) - Kamlet
Jacobs (KJ) equation", source lines 59–68.
`expr`: `1.558 * ρ**2 * N * sqrt(M) * sqrt(Qmax)`. -/
def eq_PCJ_KJ : EqDef where
  expr :=
    .mul
      (.mul
        (.mul (.mul (.num 1.558) (.pow (.var "ρ") (.num 2))) (.var "N"))
        (.sqrt (.var "M")))
      (.sqrt (.var "Qmax"))
  vars := ["P", "ρ", "N", "M", "Qmax"]
  units := [("P", "GPa"), ("ρ", "g/cm³"), ("N", "mol/g"),
            ("M", "g/mol"), ("Qmax", "kcal/kg")]

/-- Entry "Detonation Pressure at Chapman-Jouguet point (PCJ) -
Pepekin-Lebedev (PL) equation", source lines 69–77.
`expr`: `4.0 + 7.5 * neff * sqrt(Qcal) * ρ**2`. -/
def eq_PCJ_PL : EqDef where
  expr :=
    .add (.num 4.0)
      (.mul
        (.mul (.mul (.num 7.5) (.var "neff")) (.sqrt (.var "Qcal")))
        (.pow (.var "ρ") (.num 2)))
  vars := ["P", "neff", "Qcal", "ρ"]
  units := [("P", "GPa"), ("neff", ""), ("Qcal", "kcal/kg"), ("ρ", "g/cm³")]

/-- Entry "Detonation Pressure at Chapman-Jouguet point (PCJ) -
Smirnov-Smirnov (SS) equation", source lines 78–89.
`expr`: `0.034 * ρ**2.022 * a**(-0.0111) * b**0.00536 * c**0.149 * Qmax**0.589 * Ng**0.26`. -/
def eq_PCJ_SS : EqDef where
  expr :=
    .mul
      (.mul
        (.mul
          (.mul
            (.mul (.mul (.num 0.034) (.pow (.var "ρ") (.num 2.022)))
              (.pow (.var "a") (.num (-0.0111))))
            (.pow (.var "b") (.num 0.00536)))
          (.pow (.var "c") (.num 0.149)))
        (.pow (.var "Qmax") (.num 0.589)))
      (.pow (.var "Ng") (.num 0.26))
  vars := ["P", "ρ", "a", "b", "c", "Qmax", "Ng"]
  units := [("P", "GPa"), ("ρ", "g/cm³"), ("a", ""), ("b", ""),
            ("c", ""), ("Qmax", "kcal/kg"), ("Ng", "mol/kg")]

/-- Entry "Impact sensitivity (h50) - CHNO compounds", source lines
90–98.  `expr`: `-234.83 * (Veff-V002)**(1./3.) - 3.197 * νσtot2 + 962`.
The Python constant expression `1./3.` is read as the exact rational
`1/3` under the real-number idealisation of the header comment. -/
def eq_h50_CHNO : EqDef where
  expr :=
    .add
      (.sub
        (.mul (.num (-234.83))
          (.pow (.sub (.var "Veff") (.var "V002")) (.num (1 / 3))))
        (.mul (.num 3.197) (.var "νσtot2")))
      (.num 962)
  vars := ["h50", "Veff", "V002", "νσtot2"]
  units := [("h50", "cm"), ("Veff", "cm³/mol"),
            ("V002", "cm³/mol"), ("νσtot2", "kcal²/mol²")]

/-- Entry "Impact sensitivity (h50) - Nitramines", source lines 99–106.
`expr`: `-0.0064 * σ_p2 + 241.42 * ν - 3.43`. -/
def eq_h50_Nitramines : EqDef where
  expr :=
    .sub
      (.add (.mul (.num (-0.0064)) (.var "σ_p2"))
        (.mul (.num 241.42) (.var "ν")))
      (.num 3.43)
  vars := ["h50", "σ_p2", "ν"]
  units := [("h50", "cm"), ("σ_p2", "kcal²/mol²"), ("ν", "")]

/-- Entry "Detonation velocity (D) - Kamlet Jacobs (KJ) equation",
source lines 107–116.
`expr`: `1.01 * sqrt(N) * M**0.25 * Qmax**0.25 * (1+1.3*ρ)`. -/
def eq_D_KJ : EqDef where
  expr :=
    .mul
      (.mul
        (.mul (.mul (.num 1.01) (.sqrt (.var "N")))
          (.pow (.var "M") (.num 0.25)))
        (.pow (.var "Qmax") (.num 0.25)))
      (.add (.num 1) (.mul (.num 1.3) (.var "ρ")))
  vars := ["D", "N", "M", "Qmax", "ρ"]
  units := [("D", "km/s"), ("N", "mol/g"), ("M", "g/mol"),
            ("Qmax", "kcal/kg"), ("ρ", "g/cm³")]

/-- Entry "Detonation velocity (D) - Pepekin-Lebedev (PL) equation",
source lines 117–125.  `expr`: `4.2 + 2.0 * neff * sqrt(Qcal) * ρ`. -/
def eq_D_PL : EqDef where
  expr :=
    .add (.num 4.2)
      (.mul
        (.mul (.mul (.num 2.0) (.var "neff")) (.sqrt (.var "Qcal")))
        (.var "ρ"))
  vars := ["D", "neff", "Qcal", "ρ"]
  units := [("D", "km/s"), ("neff", ""), ("Qcal", "kcal/kg"), ("ρ", "g/cm³")]

/-- Entry "Detonation velocity (D) - Smirnov-Smirnov (SS) equation",
source lines 126–136.
`expr`: `0.481 * ρ**0.607 * c**0.089 * d**0.066 * Qcal**0.221 * Ng**0.19`. -/
def eq_D_SS : EqDef where
  expr :=
    .mul
      (.mul
        (.mul
          (.mul (.mul (.num 0.481) (.pow (.var "ρ") (.num 0.607)))
            (.pow (.var "c") (.num 0.089)))
          (.pow (.var "d") (.num 0.066)))
        (.pow (.var "Qcal") (.num 0.221)))
      (.pow (.var "Ng") (.num 0.19))
  vars := ["D", "ρ", "c", "d", "Qcal", "Ng"]
  units := [("D", "km/s"), ("ρ", "g/cm³"), ("c", ""), ("d", ""),
            ("Qcal", "kcal/kg"), ("Ng", "mol/kg")]

/-- Entry "Heat of sublimation (∆Hsub)", source lines 137–144.
`expr`: `0.000267 * A**2 + 1.650087 * sqrt(νσtot2) + 2.966078`. -/
def eq_dHsub : EqDef where
  expr :=
    .add
      (.add (.mul (.num 0.000267) (.pow (.var "A") (.num 2)))
        (.mul (.num 1.650087) (.sqrt (.var "νσtot2"))))
      (.num 2.966078)
  vars := ["ΔHsub", "A", "νσtot2"]
  units := [("ΔHsub", "kcal/mol"), ("A", "Å²"), ("νσtot2", "kcal²/mol²")]

/-- The equation catalog, source lines 37–145: the `equations` dict as
an association list in its source (insertion) order.  Python dicts
preserve insertion order, so this list order is the dict's key order. -/
def equations : List (String × EqDef) :=
  [("Friction Sensitivity (FS)", eq_FS),
   ("Density (ρ)", eq_Density),
   ("Detonation Pressure at Chapman-Jouguet point (PCJ) - Kamlet Jacobs (KJ) equation", eq_PCJ_KJ),
   ("Detonation Pressure at Chapman-Jouguet point (PCJ) - Pepekin-Lebedev (PL) equation", eq_PCJ_PL),
   ("Detonation Pressure at Chapman-Jouguet point (PCJ) - Smirnov-Smirnov (SS) equation", eq_PCJ_SS),
   ("Impact sensitivity (h50) - CHNO compounds", eq_h50_CHNO),
   ("Impact sensitivity (h50) - Nitramines", eq_h50_Nitramines),
   ("Detonation velocity (D) - Kamlet Jacobs (KJ) equation", eq_D_KJ),
   ("Detonation velocity (D) - Pepekin-Lebedev (PL) equation", eq_D_PL),
   ("Detonation velocity (D) - Smirnov-Smirnov (SS) equation", eq_D_SS),
   ("Heat of sublimation (∆Hsub)", eq_dHsub)]

/-- Association-list lookup: the model of Python dict indexing. -/
def alist_lookup {α : Type} : List (String × α) → String → Option α
  | [], _ => none
  | (k, v) :: rest, key => if k = key then some v else alist_lookup rest key

/-- Python `dict.get(key, default)`. -/
def alist_getD {α : Type} (l : List (String × α)) (key : String) (dflt : α) : α :=
  match alist_lookup l key with
  | some v => v
  | none => dflt

/-- The `var_display` table (source lines 148–171) mapping variable
names to prettier display names for the GUI. -/
def var_display : List (String × String) :=
  [("νσtot2", "νσₜₒₜ²"), ("Veff", "Veff"), ("V001", "V(0.001)"),
   ("V002", "V(0.002)"), ("σ_p2", "σ₊²"), ("ρ", "ρ"), ("Qmax", "Qmax"),
   ("Qcal", "Qcal"), ("ΔHsub", "ΔHsub"), ("h50", "h₅₀"), ("neff", "neff"),
   ("Ng", "Ng"), ("M", "M"), ("N", "N"), ("A", "A"), ("c", "c"),
   ("d", "d"), ("P", "P"), ("D", "D"), ("Pp", "P⁺"), ("Pn", "P⁻"),
   ("nH", "nH"), ("nN", "nN"), ("nO", "nO")]

/-- The reverse mapping (source line 174).  The display names are
pairwise distinct, so the dict comprehension's last-wins rule and this
association list's first-match rule agree. -/
def pretty_to_var : List (String × String) :=
  var_display.map (fun p => (p.2, p.1))

/-- Model of `var_display.get(target_var, target_var)` (source line
322). -/
def var_display_get (v : String) : String := alist_getD var_display v v

/-- Model of `pretty_to_var.get(selected_pretty, selected_pretty)`
(source lines 241 and 290). -/
def pretty_to_var_get (p : String) : String := alist_getD pretty_to_var p p

/-- The id sequence the equation combobox is populated from (source
line 356: `values=list(equations.keys())`) — the spec's
`listEquations()`.  A pure constant, hence stable across calls, in
dict insertion order, which Python guarantees equal to source order. -/
def eq_choice_values : List String := equations.map Prod.fst

/-- Model of `sp.solve(sp.Eq(symbols[vars_list[0]], expr),
symbols[target_var])` (source line 303), in the only case any theorem
below relies on: the target is the defined quantity `vars_list[0]` and
that symbol does not occur in `expr`.  The equation `v0 - expr = 0` is
then linear in the solved symbol with coefficient 1, and SymPy returns
the single root `expr` (up to its default solution simplification,
which preserves the root's value; the theorems below depend only on
the value).  Every other target/occurrence pattern is outside this
model and is mapped to the empty root list; no theorem below is stated
about those cases (see the statuses of claims C1 and C2). -/
def sympySolve (v0 : String) (e : Expr) (target : String) : List Expr :=
  if target = v0 ∧ ¬ (exprVars e).contains v0 then [e] else []

/-- The input-collection loop of `calculate` (source lines 310–317):
walk the entry widgets in insertion order; the first entry whose text
`float()` cannot parse aborts with that variable's name (the
`"Invalid number for {var}"` message box); otherwise all parsed values
are collected into the substitution mapping. -/
def parseInputs : List (String × Option PyVal) → Except String (List (String × PyVal))
  | [] => .ok []
  | (v, none) :: _ => .error v
  | (v, some x) :: rest =>
    match parseInputs rest with
    | .error w => .error w
    | .ok subs => .ok ((v, x) :: subs)

/-- Environment for `evalf(subs=subs)`: substituted variables take
their parsed value; a symbol left unsubstituted keeps the result
symbolic, which the `.4f` format then rejects — observably `und`. -/
def envOf (subs : List (String × PyVal)) : String → PyVal :=
  fun v =>
    match alist_lookup subs v with
    | some x => x
    | none => .und

/-- Four-decimal fixed-point rendering of the integer `n` read as
`n / 10000`. -/
def decimal4 (n : ℤ) : String :=
  let a := n.natAbs
  let frac := toString (a % 10000)
  (if n < 0 then "-" else "") ++ toString (a / 10000) ++ "." ++
    String.mk (List.replicate (4 - frac.length) '0') ++ frac

/-- Model of Python's fixed `.4f` formatting of a finite real value
(source line 323): the value rounded to four decimal places.  (Python
rounds the nearest double half-to-even; this model rounds the exact
real half-up.  The two differ only at rounding ties, and no
computation in this file lands on a tie.) -/
noncomputable def fmt4 (x : ℝ) : String := decimal4 (round (x * 10000))

/-- Observable outcome of one `calculate` call (source lines 285–325):
which message box is shown, or which text is written to `output_label`.
The constructor `domainError` corresponds to no behaviour of the code:
it is the spec's `DomainError(expression)` (spec §7), present only so
that claim C7 can be stated against the code's actual outcome;
`calculate` never produces it. -/
inductive CalcResult where
  | pythonError                -- uncaught KeyError/IndexError, no message box
  | cannotSolve                -- "Error": "Cannot solve for selected variable"
  | invalidInput (v : String)  -- "Input Error": "Invalid number for {v}"
  | evalException              -- "Error": str(e) of the raised exception, carrying no sub-expression
  | display (text : String)    -- output_label.config(text=...)
  | domainError (subexpr : String)
deriving DecidableEq

/-- Whether an outcome is the `"Invalid number for {var}"` box. -/
def CalcResult.isInvalidInput : CalcResult → Bool
  | .invalidInput _ => true
  | _ => false

/-- Whether an outcome is the spec-side `DomainError` (never produced
by the code's `calculate`). -/
def CalcResult.isDomainError : CalcResult → Bool
  | .domainError _ => true
  | _ => false

/-- The `calculate` callback (source lines 285–325) as a pure function
of the catalog, of `eq_choice.get()`, of `var_choice.get()` and of the
`input_entries` texts (each abstracted by its `float()` outcome), in
source order: resolve the equation and target, solve symbolically,
collect the inputs, evaluate, format.  `pythonError` models the
uncaught exceptions of `equations[eq_name]` on an unknown name (line
292) and of `vars_list[0]` on an empty variable list (line 303). -/
noncomputable def calculate (cat : List (String × EqDef))
    (eqName selectedPretty : String)
    (entries : List (String × Option PyVal)) : CalcResult :=
  match alist_lookup cat eqName with
  | none => .pythonError
  | some info =>
    let target_var := pretty_to_var_get selectedPretty
    let unit := alist_getD info.units target_var ""
    match info.vars with
    | [] => .pythonError
    | v0 :: _ =>
      match sympySolve v0 info.expr target_var with
      | [] => .cannotSolve
      | solution :: _ =>
        match parseInputs entries with
        | .error v => .invalidInput v
        | .ok subs =>
          match evalPy (envOf subs) solution with
          | .fin x =>
              .display (var_display_get target_var ++ " = " ++ fmt4 x ++ " " ++ unit)
          | .und => .evalException

/-- Effect of one `calculate` call on `output_label`: only the success
branch (source line 323) writes to it; every failure branch returns
without touching it. -/
def outputAfter (prev : String) : CalcResult → String
  | .display t => t
  | _ => prev

/-- Duplicate-freedom of a list of names. -/
def namesNodup : List String → Bool
  | [] => true
  | x :: xs => !(xs.contains x) && namesNodup xs

/-- The three load-time well-formedness conditions of spec §6 on a
catalog entry: the variable list is nonempty, has no duplicates, and
declares every identifier occurring in the expression. -/
def entryWF (d : EqDef) : Bool :=
  !d.vars.isEmpty && namesNodup d.vars &&
    (exprVars d.expr).all (fun v => d.vars.contains v)

/-- Claim C10's invariant: the conditions of `entryWF`, and the defined
quantity (the first variable) does not occur in the expression. -/
def entryWFStrong (d : EqDef) : Bool :=
  entryWF d &&
    (match d.vars with
     | [] => false
     | v0 :: _ => !(exprVars d.expr).contains v0)

/-- Spec §6's load-time failure (spec-side; the code has no such
check). -/
inductive LoadError where
  | malformedEntry (id : String)
deriving DecidableEq

/-- Catalog loading as the code performs it (source lines 37–145): the
module-level dict literal is simply constructed when the script starts;
no validation of any kind runs.  Loading therefore succeeds whether the
entries are well-formed or not.  The `Except LoadError` codomain exists
only so that spec §6's "loading MUST fail fast" (claim C6) can be
stated against this behaviour. -/
def loadCatalog (entries : List (String × EqDef)) :
    Except LoadError (List (String × EqDef)) :=
  .ok entries

/-- Unit label the display string uses for a given equation and target:
`equations[eq_name]['units'].get(target_var, '')` (source lines
295–296). -/
def unitFor (eqName tgt : String) : String :=
  match alist_lookup equations eqName with
  | some d => alist_getD d.units tgt ""
  | none => ""

/-- First entry (in widget insertion order) whose text `float()`
rejects — the variable the `"Invalid number for {var}"` box names. -/
def firstNoneVar : List (String × Option PyVal) → Option String
  | [] => none
  | (v, none) :: _ => some v
  | (_, some _) :: rest => firstNoneVar rest

/-- A malformed catalog entry used to exercise spec §6's load-time
conditions: its variable list is empty and the identifier `x` of its
expression is undeclared. -/
def badEntry : EqDef where
  expr := .var "x"
  vars := []
  units := []

/-- Auxiliary rounding characterisation: `round x = n` whenever
`x + 1/2` lies in `[n, n + 1)`. -/
lemma round_eq_int_of (x : ℝ) (n : ℤ) (h1 : (n : ℝ) ≤ x + 1 / 2)
    (h2 : x + 1 / 2 < n + 1) : round x = n := by
  rw [round_eq, Int.floor_eq_iff]
  exact ⟨h1, h2⟩

/-- Lower bound on `√1200` used by the Pepekin-Lebedev computations. -/
lemma sqrt1200_gt : (34.641014 : ℝ) < Real.sqrt 1200 :=
  (Real.lt_sqrt (by norm_num)).mpr (by norm_num)

/-- Upper bound on `√1200` used by the Pepekin-Lebedev computations. -/
lemma sqrt1200_lt : Real.sqrt 1200 < 34.6410416 :=
  (Real.sqrt_lt' (by norm_num)).mpr (by norm_num)

/-- The input loop fails with exactly the first unparseable entry. -/
lemma parseInputs_error_of_firstNone :
    ∀ (entries : List (String × Option PyVal)) (v : String),
      firstNoneVar entries = some v → parseInputs entries = .error v
  | [], v => by
      intro h
      simp [firstNoneVar] at h
  | (w, none) :: rest, v => by
      intro h
      simp only [firstNoneVar, Option.some.injEq] at h
      subst h
      rfl
  | (w, some x) :: rest, v => by
      intro h
      have ih := parseInputs_error_of_firstNone rest v (by simpa [firstNoneVar] using h)
      simp [parseInputs, ih]

/-- A complete successful run of `calculate` on the Nitramines impact
sensitivity equation, solved for its defined quantity `h50` (selected
in the combobox under its display name `h₅₀`) at σ₊² = 0, ν = 0: the
value is `-0.0064·0 + 241.42·0 - 3.43 = -3.43` and the text written to
`output_label` uses the display name `h₅₀`, not the variable name
`h50`. -/
lemma nitramines_run :
    calculate equations "Impact sensitivity (h50) - Nitramines" "h₅₀"
      [("σ_p2", some (.fin 0)), ("ν", some (.fin 0))]
      = .display "h₅₀ = -3.4300 cm" := by
  have hlook : alist_lookup equations "Impact sensitivity (h50) - Nitramines"
      = some eq_h50_Nitramines := rfl
  have htgt : pretty_to_var_get "h₅₀" = "h50" := rfl
  have hvars : eq_h50_Nitramines.vars = "h50" :: ["σ_p2", "ν"] := rfl
  have hsolve : sympySolve "h50" eq_h50_Nitramines.expr "h50"
      = [eq_h50_Nitramines.expr] := rfl
  have hparse : parseInputs [("σ_p2", some (.fin 0)), ("ν", some (.fin 0))]
      = .ok [("σ_p2", .fin 0), ("ν", .fin 0)] := rfl
  have heval : evalPy (envOf [("σ_p2", .fin 0), ("ν", .fin 0)]) eq_h50_Nitramines.expr
      = .fin (-0.0064 * 0 + 241.42 * 0 - 3.43) := by
    simp +decide only [eq_h50_Nitramines, evalPy, envOf, alist_lookup, pyAdd, pySub, pyMul]
    norm_num
  have hfmt : fmt4 (-0.0064 * 0 + 241.42 * 0 - 3.43) = "-3.4300" := by
    unfold fmt4
    rw [show ((-0.0064 * 0 + 241.42 * 0 - 3.43 : ℝ) * 10000) = ((-34300 : ℤ) : ℝ) by norm_num,
      round_intCast]
    decide
  have hunit : alist_getD eq_h50_Nitramines.units "h50" "" = "cm" := rfl
  have hdisp : var_display_get "h50" = "h₅₀" := rfl
  simp only [calculate, hlook, htgt, hvars, hsolve, hparse, heval, hfmt, hunit, hdisp]
  rfl

/-- C3 (amended): solving the Pepekin-Lebedev detonation-velocity
equation for `D` with `neff = 1.0`, `Qcal = 1200`, `ρ = 1.8` produces
the value `4.2 + 2.0*1.0*sqrt(1200)*1.8`, which is ≈ 128.9077 km/s
(not ≈ 128.0), and the code displays `D = 128.9077 km/s`. -/
theorem pl_velocity_value_display :
    calculate equations "Detonation velocity (D) - Pepekin-Lebedev (PL) equation" "D"
        [("neff", some (.fin 1)), ("Qcal", some (.fin 1200)), ("ρ", some (.fin 1.8))]
        = .display "D = 128.9077 km/s" ∧
      |(4.2 + 2.0 * 1.0 * Real.sqrt 1200 * 1.8 : ℝ) - 128.9077| ≤ 0.0001 := by
  constructor
  · have hlook : alist_lookup equations
        "Detonation velocity (D) - Pepekin-Lebedev (PL) equation" = some eq_D_PL := rfl
    have htgt : pretty_to_var_get "D" = "D" := rfl
    have hvars : eq_D_PL.vars = "D" :: ["neff", "Qcal", "ρ"] := rfl
    have hsolve : sympySolve "D" eq_D_PL.expr "D" = [eq_D_PL.expr] := rfl
    have hparse : parseInputs
        [("neff", some (.fin 1)), ("Qcal", some (.fin 1200)), ("ρ", some (.fin 1.8))]
        = .ok [("neff", .fin 1), ("Qcal", .fin 1200), ("ρ", .fin 1.8)] := rfl
    have heval : evalPy (envOf [("neff", .fin 1), ("Qcal", .fin 1200), ("ρ", .fin 1.8)])
        eq_D_PL.expr = .fin (4.2 + 2.0 * 1.0 * Real.sqrt 1200 * 1.8) := by
      simp +decide only [eq_D_PL, evalPy, envOf, alist_lookup, pyAdd, pyMul, pySqrt]
      norm_num
    have hfmt : fmt4 (4.2 + 2.0 * 1.0 * Real.sqrt 1200 * 1.8) = "128.9077" := by
      unfold fmt4
      rw [round_eq_int_of ((4.2 + 2.0 * 1.0 * Real.sqrt 1200 * 1.8) * 10000) 1289077
        (by push_cast; nlinarith [sqrt1200_gt]) (by push_cast; nlinarith [sqrt1200_lt])]
      decide
    have hunit : alist_getD eq_D_PL.units "D" "" = "km/s" := rfl
    have hdisp : var_display_get "D" = "D" := rfl
    simp only [calculate, hlook, htgt, hvars, hsolve, hparse, heval, hfmt, hunit, hdisp]
    rfl
  · rw [abs_le]
    constructor
    · nlinarith [sqrt1200_gt]
    · nlinarith [sqrt1200_lt]

/-- C3 (counterexample): the claim's "approximately 128.0 km/s" fails —
the value `4.2 + 2.0*1.0*sqrt(1200)*1.8` the solve produces differs
from 128.0 by more than 0.5 (it is 128.9077…). -/
theorem pl_velocity_value_not_128 :
    evalPy (envOf [("neff", .fin 1), ("Qcal", .fin 1200), ("ρ", .fin 1.8)]) eq_D_PL.expr
        = .fin (4.2 + 2.0 * 1.0 * Real.sqrt 1200 * 1.8) ∧
      ¬ |(4.2 + 2.0 * 1.0 * Real.sqrt 1200 * 1.8 : ℝ) - 128.0| ≤ 0.5 := by
  constructor
  · simp +decide only [eq_D_PL, evalPy, envOf, alist_lookup, pyAdd, pyMul, pySqrt]
    norm_num
  · intro hcon
    rw [abs_le] at hcon
    nlinarith [sqrt1200_gt, hcon.2]

/-- C4 (amended): solving the Density equation for `ρ` with `M = 100`,
`V001 = 50`, `νσtot2 = 2.0` produces the value
`0.9183*(100/50) + 0.0028*2.0 + 0.0443`, which is exactly 1.8865 g/cm³
(not ≈ 1.8875), and the code displays `ρ = 1.8865 g/cm³`. -/
theorem density_value_display :
    calculate equations "Density (ρ)" "ρ"
        [("M", some (.fin 100)), ("V001", some (.fin 50)), ("νσtot2", some (.fin 2))]
        = .display "ρ = 1.8865 g/cm³" ∧
      (0.9183 * (100 / 50) + 0.0028 * 2.0 + 0.0443 : ℝ) = 1.8865 := by
  constructor
  · have hlook : alist_lookup equations "Density (ρ)" = some eq_Density := rfl
    have htgt : pretty_to_var_get "ρ" = "ρ" := rfl
    have hvars : eq_Density.vars = "ρ" :: ["M", "V001", "νσtot2"] := rfl
    have hsolve : sympySolve "ρ" eq_Density.expr "ρ" = [eq_Density.expr] := rfl
    have hparse : parseInputs
        [("M", some (.fin 100)), ("V001", some (.fin 50)), ("νσtot2", some (.fin 2))]
        = .ok [("M", .fin 100), ("V001", .fin 50), ("νσtot2", .fin 2)] := rfl
    have heval : evalPy (envOf [("M", .fin 100), ("V001", .fin 50), ("νσtot2", .fin 2)])
        eq_Density.expr = .fin (0.9183 * (100 / 50) + 0.0028 * 2.0 + 0.0443) := by
      simp +decide only [eq_Density, evalPy, envOf, alist_lookup, pyAdd, pyMul, pyDiv]
      norm_num
    have hfmt : fmt4 (0.9183 * (100 / 50) + 0.0028 * 2.0 + 0.0443) = "1.8865" := by
      unfold fmt4
      rw [show ((0.9183 * (100 / 50) + 0.0028 * 2.0 + 0.0443 : ℝ) * 10000)
          = ((18865 : ℤ) : ℝ) by norm_num, round_intCast]
      decide
    have hunit : alist_getD eq_Density.units "ρ" "" = "g/cm³" := rfl
    have hdisp : var_display_get "ρ" = "ρ" := rfl
    simp only [calculate, hlook, htgt, hvars, hsolve, hparse, heval, hfmt, hunit, hdisp]
    rfl
  · norm_num

/-- C4 (counterexample): the claim's "approximately 1.8875 g/cm³"
fails — the produced value `0.9183*(100/50) + 0.0028*2.0 + 0.0443` is
exactly 1.8865, which is not within half a display digit (0.0005) of
1.8875. -/
theorem density_value_not_1_8875 :
    evalPy (envOf [("M", .fin 100), ("V001", .fin 50), ("νσtot2", .fin 2)]) eq_Density.expr
        = .fin (0.9183 * (100 / 50) + 0.0028 * 2.0 + 0.0443) ∧
      ¬ |(0.9183 * (100 / 50) + 0.0028 * 2.0 + 0.0443 : ℝ) - 1.8875| ≤ 0.0005 := by
  constructor
  · simp +decide only [eq_Density, evalPy, envOf, alist_lookup, pyAdd, pyMul, pyDiv]
    norm_num
  · intro hcon
    have h1 := hcon
    rw [abs_le] at h1
    have := h1.1
    norm_num at this

/-- C5 (amended): if some required input text is one that `float()`
rejects outright (e.g. `"abc"`), `calculate` fails with the
`"Invalid number for {var}"` box naming the first such variable in
entry order, and `output_label` is untouched — provided the run
reaches the input loop, i.e. the equation resolves and the symbolic
solve (modelled for the defined-quantity target) succeeds, since the
source checks inputs only after solving.  Texts such as `"nan"` or
`"inf"`, which `float()` accepts although they denote no finite real,
are not rejected here (see the counterexample). -/
theorem invalid_input_atomic (eqName sp : String) (info : EqDef)
    (v0 : String) (rest : List String)
    (entries : List (String × Option PyVal)) (v prev : String)
    (hl : alist_lookup equations eqName = some info)
    (hv : info.vars = v0 :: rest)
    (htgt : pretty_to_var_get sp = v0)
    (hocc : v0 ∉ exprVars info.expr)
    (hfn : firstNoneVar entries = some v) :
    calculate equations eqName sp entries = .invalidInput v ∧
      outputAfter prev (calculate equations eqName sp entries) = prev := by
  have hp : parseInputs entries = .error v := parseInputs_error_of_firstNone entries v hfn
  have hsv : sympySolve v0 info.expr v0 = [info.expr] := by
    simp [sympySolve, hocc]
  have hcalc : calculate equations eqName sp entries = .invalidInput v := by
    simp only [calculate, hl, htgt, hv, hsv, hp]
  exact ⟨hcalc, by rw [hcalc]; rfl⟩

/-- C5 (witness): concrete instance of `invalid_input_atomic` — the
Pepekin-Lebedev velocity equation solved for `D` with an unparseable
`neff` entry fails atomically, naming `neff`. -/
theorem invalid_input_atomic_witness :
    calculate equations "Detonation velocity (D) - Pepekin-Lebedev (PL) equation" "D"
        [("neff", none), ("Qcal", some (.fin 1)), ("ρ", some (.fin 1.8))]
        = .invalidInput "neff" ∧
      outputAfter "" (calculate equations
        "Detonation velocity (D) - Pepekin-Lebedev (PL) equation" "D"
        [("neff", none), ("Qcal", some (.fin 1)), ("ρ", some (.fin 1.8))]) = "" :=
  invalid_input_atomic _ _ eq_D_PL "D" ["neff", "Qcal", "ρ"] _ "neff" ""
    rfl rfl rfl (by decide) rfl

/-- C5 (counterexample): the entry text `"nan"` does not denote a
finite real number, yet `float("nan")` succeeds, so the input loop
accepts it (modelled by the parse outcome `some und`): `calculate`
does not fail with the claimed `"Invalid number for {var}"` box — it
proceeds to evaluation and ends in the generic error box instead. -/
theorem nonfinite_input_accepted :
    calculate equations "Detonation velocity (D) - Pepekin-Lebedev (PL) equation" "D"
        [("neff", some (.fin 1)), ("Qcal", some .und), ("ρ", some (.fin 1.8))]
        = .evalException ∧
      CalcResult.isInvalidInput
        (calculate equations "Detonation velocity (D) - Pepekin-Lebedev (PL) equation" "D"
          [("neff", some (.fin 1)), ("Qcal", some .und), ("ρ", some (.fin 1.8))]) = false := by
  have hlook : alist_lookup equations
      "Detonation velocity (D) - Pepekin-Lebedev (PL) equation" = some eq_D_PL := rfl
  have htgt : pretty_to_var_get "D" = "D" := rfl
  have hvars : eq_D_PL.vars = "D" :: ["neff", "Qcal", "ρ"] := rfl
  have hsolve : sympySolve "D" eq_D_PL.expr "D" = [eq_D_PL.expr] := rfl
  have hparse : parseInputs
      [("neff", some (.fin 1)), ("Qcal", some .und), ("ρ", some (.fin 1.8))]
      = .ok [("neff", .fin 1), ("Qcal", .und), ("ρ", .fin 1.8)] := rfl
  have heval : evalPy (envOf [("neff", .fin 1), ("Qcal", .und), ("ρ", .fin 1.8)])
      eq_D_PL.expr = .und := by
    simp +decide only [eq_D_PL, evalPy, envOf, alist_lookup, pyAdd, pyMul, pySqrt]
    norm_num
  have hcalc : calculate equations
      "Detonation velocity (D) - Pepekin-Lebedev (PL) equation" "D"
      [("neff", some (.fin 1)), ("Qcal", some .und), ("ρ", some (.fin 1.8))]
      = .evalException := by
    simp only [calculate, hlook, htgt, hvars, hsolve, hparse, heval]
  exact ⟨hcalc, by rw [hcalc]; rfl⟩

/-- C6 (amended): the code performs no load-time catalog validation —
constructing the catalog (the module-level dict literal) succeeds for
every entry list, malformed or not; a malformed entry (here: empty
`variables` list, undeclared identifier `x` in `expr`) is first
detected at solve time, as the uncaught `IndexError` of `vars_list[0]`
inside `calculate`. -/
theorem catalog_load_never_fails :
    (∀ entries : List (String × EqDef), loadCatalog entries = .ok entries) ∧
      calculate [("bad", badEntry)] "bad" "x" [] = .pythonError :=
  ⟨fun _ => rfl, rfl⟩

/-- C6 (counterexample): loading a catalog that contains a malformed
entry succeeds, although the claim requires loading to fail at
startup whenever an entry is malformed. -/
theorem catalog_load_accepts_malformed :
    loadCatalog [("bad", badEntry)] = .ok [("bad", badEntry)] ∧ entryWF badEntry = false :=
  ⟨rfl, rfl⟩

/-- C7 (amended): whenever numeric evaluation of the solved expression
does not produce a finite real (division by zero, fractional power of
a negative intermediate value, non-finite substitution), `calculate`
never displays a value: the `.4f` formatting raises, the exception is
caught, and the generic "Error" box is shown — an outcome carrying no
offending sub-expression — with `output_label` untouched.  The scope
is the same modelled fragment as in `invalid_input_atomic`. -/
theorem undefined_eval_generic_error (eqName sp : String) (info : EqDef)
    (v0 : String) (rest : List String)
    (entries : List (String × Option PyVal)) (subs : List (String × PyVal)) (prev : String)
    (hl : alist_lookup equations eqName = some info)
    (hv : info.vars = v0 :: rest)
    (htgt : pretty_to_var_get sp = v0)
    (hocc : v0 ∉ exprVars info.expr)
    (hp : parseInputs entries = .ok subs)
    (he : evalPy (envOf subs) info.expr = .und) :
    calculate equations eqName sp entries = .evalException ∧
      outputAfter prev (calculate equations eqName sp entries) = prev := by
  have hsv : sympySolve v0 info.expr v0 = [info.expr] := by
    simp [sympySolve, hocc]
  have hcalc : calculate equations eqName sp entries = .evalException := by
    simp only [calculate, hl, htgt, hv, hsv, hp, he]
  exact ⟨hcalc, by rw [hcalc]; rfl⟩

/-- C7 (witness): concrete instance of `undefined_eval_generic_error`
— the Density equation solved for ρ with `V001 = 0` divides by zero
and ends in the generic error box with no output written. -/
theorem undefined_eval_generic_error_witness :
    calculate equations "Density (ρ)" "ρ"
        [("M", some (.fin 100)), ("V001", some (.fin 0)), ("νσtot2", some (.fin 2))]
        = .evalException ∧
      outputAfter "" (calculate equations "Density (ρ)" "ρ"
        [("M", some (.fin 100)), ("V001", some (.fin 0)), ("νσtot2", some (.fin 2))]) = "" :=
  undefined_eval_generic_error _ _ eq_Density "ρ" ["M", "V001", "νσtot2"] _
    [("M", .fin 100), ("V001", .fin 0), ("νσtot2", .fin 2)] ""
    rfl rfl rfl (by decide) rfl
    (by
      simp +decide only [eq_Density, evalPy, envOf, alist_lookup, pyAdd, pyMul, pyDiv]
      norm_num)

/-- C7 (counterexample): at the concrete division-by-zero request
(Density solved for ρ with `V001 = 0`) the failure is the payload-free
generic outcome, not the claimed `DomainError` carrying the offending
sub-expression — no such outcome exists in the code. -/
theorem undefined_eval_no_domain_error :
    calculate equations "Density (ρ)" "ρ"
        [("M", some (.fin 100)), ("V001", some (.fin 0)), ("νσtot2", some (.fin 2))]
        = .evalException ∧
      CalcResult.isDomainError
        (calculate equations "Density (ρ)" "ρ"
          [("M", some (.fin 100)), ("V001", some (.fin 0)), ("νσtot2", some (.fin 2))]) = false := by
  have hlook : alist_lookup equations "Density (ρ)" = some eq_Density := rfl
  have htgt : pretty_to_var_get "ρ" = "ρ" := rfl
  have hvars : eq_Density.vars = "ρ" :: ["M", "V001", "νσtot2"] := rfl
  have hsolve : sympySolve "ρ" eq_Density.expr "ρ" = [eq_Density.expr] := rfl
  have hparse : parseInputs
      [("M", some (.fin 100)), ("V001", some (.fin 0)), ("νσtot2", some (.fin 2))]
      = .ok [("M", .fin 100), ("V001", .fin 0), ("νσtot2", .fin 2)] := rfl
  have heval : evalPy (envOf [("M", .fin 100), ("V001", .fin 0), ("νσtot2", .fin 2)])
      eq_Density.expr = .und := by
    simp +decide only [eq_Density, evalPy, envOf, alist_lookup, pyAdd, pyMul, pyDiv]
    norm_num
  have hcalc : calculate equations "Density (ρ)" "ρ"
      [("M", some (.fin 100)), ("V001", some (.fin 0)), ("νσtot2", some (.fin 2))]
      = .evalException := by
    simp only [calculate, hlook, htgt, hvars, hsolve, hparse, heval]
  exact ⟨hcalc, by rw [hcalc]; rfl⟩

/-- C8 (confirmed): the id sequence that populates the equation
combobox, `list(equations.keys())`, equals — verbatim and in order —
the catalog's source-order key list; it is a pure constant of the
catalog, hence stable across calls. -/
theorem eq_choice_values_source_order :
    eq_choice_values =
      ["Friction Sensitivity (FS)",
       "Density (ρ)",
       "Detonation Pressure at Chapman-Jouguet point (PCJ) - Kamlet Jacobs (KJ) equation",
       "Detonation Pressure at Chapman-Jouguet point (PCJ) - Pepekin-Lebedev (PL) equation",
       "Detonation Pressure at Chapman-Jouguet point (PCJ) - Smirnov-Smirnov (SS) equation",
       "Impact sensitivity (h50) - CHNO compounds",
       "Impact sensitivity (h50) - Nitramines",
       "Detonation velocity (D) - Kamlet Jacobs (KJ) equation",
       "Detonation velocity (D) - Pepekin-Lebedev (PL) equation",
       "Detonation velocity (D) - Smirnov-Smirnov (SS) equation",
       "Heat of sublimation (∆Hsub)"] := rfl

/-- C9 (amended): every text a successful `calculate` run writes to
`output_label` has the shape `"<name> = <value, 4 decimals> <unit>"`,
where `<name>` is `var_display.get(target_var, target_var)` — the
display name of the target, not necessarily the `variables` entry
itself (they differ e.g. for `h50`, shown as `h₅₀`; see the
counterexample). -/
theorem display_string_shape (eqName sp : String)
    (entries : List (String × Option PyVal)) (s : String)
    (h : calculate equations eqName sp entries = .display s) :
    ∃ x : ℝ, s = var_display_get (pretty_to_var_get sp) ++ " = " ++ fmt4 x ++ " " ++
      unitFor eqName (pretty_to_var_get sp) := by
  simp only [calculate] at h
  split at h
  · simp at h
  next info hl =>
    split at h
    · simp at h
    next v0 rest hv =>
      split at h
      · simp at h
      next sol tail hs =>
        split at h
        next w hp => simp at h
        next subs hp =>
          split at h
          next x hx =>
            refine ⟨x, ?_⟩
            simp only [CalcResult.display.injEq] at h
            rw [← h]
            unfold unitFor
            rw [hl]
          · simp at h

/-- C9 (witness): the display shape instantiated at the concrete
successful Nitramines h₅₀ solve. -/
theorem display_string_shape_witness :
    ∃ x : ℝ, "h₅₀ = -3.4300 cm"
      = var_display_get (pretty_to_var_get "h₅₀") ++ " = " ++ fmt4 x ++ " " ++
        unitFor "Impact sensitivity (h50) - Nitramines" (pretty_to_var_get "h₅₀") :=
  display_string_shape _ _ _ _ nitramines_run

/-- C9 (counterexample): for target `h50` the code displays the
display name `h₅₀`: the successful solve writes `"h₅₀ = -3.4300 cm"`,
which is not the claimed `"<targetVariable> = <value, 4 decimals>
<unit>"` string `"h50 = -3.4300 cm"`. -/
theorem display_string_uses_display_name :
    calculate equations "Impact sensitivity (h50) - Nitramines" "h₅₀"
        [("σ_p2", some (.fin 0)), ("ν", some (.fin 0))]
        = .display "h₅₀ = -3.4300 cm" ∧
      "h₅₀ = -3.4300 cm" ≠ "h50 = -3.4300 cm" :=
  ⟨nitramines_run, by decide⟩

/-- C10 (confirmed): every shipped catalog entry is well-formed — its
variable list is nonempty and duplicate-free, every identifier
occurring in its expression is declared in the variable list, and the
defined quantity (the first variable) never occurs in the expression —
so the equality `variables[0] == expr` is well-formed for every entry,
although the code performs no load-time validation. -/
theorem catalog_entries_wellformed :
    equations.all (fun p => entryWFStrong p.2) = true := by decide
